import Mathlib

/-!
Verification of the pineapple-apk client core: the resilient request
orchestrator (`analyzePineapple` in `src/App.js`, `ApiService`) and the
score transformer (`transformBackendResponse`, `convertClassToSweetness`
and the derived-label functions).

JavaScript numbers are modelled as `ℚ`, durations in milliseconds as `Nat`,
`null`/absent fields as `Option`, thrown exceptions as `Except`, and the
network collaborator as an explicit environment supplying the outcome of
each `fetch` the code performs, in program order.
-/

set_option maxHeartbeats 1000000

namespace PineappleApk

/-- JavaScript `Math.round`: round half toward positive infinity. -/
def mathRound (q : ℚ) : ℤ := ⌊q + 1/2⌋

/-- JavaScript `x || 0` on an optional number: `null`/`undefined` and `0`
are falsy and yield the default `0`. -/
def jsOrZero (o : Option ℚ) : ℚ :=
  match o with
  | none => 0
  | some v => if v = 0 then 0 else v

/-- `String.prototype.toLowerCase` (ASCII case folding, character-wise). -/
def jsToLowerCase (s : String) : String := ⟨s.data.map Char.toLower⟩

def listStartsWith : List Char → List Char → Bool
  | _, [] => true
  | [], _ :: _ => false
  | c :: cs, p :: ps => c == p && listStartsWith cs ps

def listContainsSub : List Char → List Char → Bool
  | [], pat => pat.isEmpty
  | c :: cs, pat => listStartsWith (c :: cs) pat || listContainsSub cs pat

/-- JavaScript `String.prototype.includes`. -/
def includesSub (s pat : String) : Bool := listContainsSub s.data pat.data

/-- Render an optional HTTP status the way JS template literals print it
(`undefined` for a missing value). -/
def optNatStr (o : Option Nat) : String :=
  match o with
  | none => "undefined"
  | some n => toString n

/-- Render an integer-valued score the way JS prints a number. -/
def ratStr (q : ℚ) : String :=
  if q.den = 1 then toString q.num else toString q

/-- `Number.prototype.toFixed(0)` on a non-negative value, as used for the
confidence percentage in the characteristics list. -/
def toFixed0 (q : ℚ) : String := toString (mathRound q)

/-! ## Configuration (`src/config/apiConfig.ts`) -/

structure ApiConfigConsts where
  BASE_URL : String
  REQUEST_TIMEOUT : Nat
  UPLOAD_TIMEOUT : Nat
  TEST_TIMEOUT : Nat
  WARMUP_TIMEOUT : Nat
  PROGRESSIVE_TIMEOUT : Bool
  MAX_RETRIES : Nat
  RETRY_DELAY : Nat
  PROGRESSIVE_DELAY : Bool
  MAX_RETRY_DELAY : Nat
  deriving Repr, DecidableEq

/-- `API_CONFIG` from `src/config/apiConfig.ts`. -/
def API_CONFIG : ApiConfigConsts :=
  { BASE_URL := "https://matts-12-backend-pineapple-server.hf.space"
    REQUEST_TIMEOUT := 30000
    UPLOAD_TIMEOUT := 120000
    TEST_TIMEOUT := 45000
    WARMUP_TIMEOUT := 90000
    PROGRESSIVE_TIMEOUT := true
    MAX_RETRIES := 5
    RETRY_DELAY := 2000
    PROGRESSIVE_DELAY := true
    MAX_RETRY_DELAY := 10000 }

/-- `ApiConfig` (the service's mutable configuration: base URL + timeout). -/
structure ApiConfig where
  baseUrl : String
  timeout : Nat
  deriving Repr, DecidableEq

def DEFAULT_CONFIG : ApiConfig :=
  { baseUrl := API_CONFIG.BASE_URL, timeout := API_CONFIG.REQUEST_TIMEOUT }

/-! ## Backend wire data model (`src/App.js` interfaces) -/

/-- `probabilities: { High?, Medium?, Low? } | null` — per-class
probabilities, each field optional. -/
structure Probabilities where
  High : Option ℚ
  Medium : Option ℚ
  Low : Option ℚ
  deriving Repr, DecidableEq

/-- `BackendDetectionResult` (only the fields the transformer reads). -/
structure BackendDetectionResult where
  bbox : ℚ × ℚ × ℚ × ℚ
  confidence : ℚ
  class_ : String
  class_id : ℤ
  deriving Repr, DecidableEq

/-- `BackendPredictionResponse` (the fields the core consumes). -/
structure BackendPredictionResponse where
  is_pineapple : Bool
  detection_confidence : ℚ
  detections : List BackendDetectionResult
  prediction : Option String
  confidence : Option ℚ
  probabilities : Option Probabilities
  deriving Repr, DecidableEq

/-! ## Transformed result data model -/

structure QualityMetrics where
  ripeness : String
  eatingExperience : String
  bestUse : String
  deriving Repr, DecidableEq

structure SweetnessInfo where
  sweetness : ℚ
  confidence : ℚ
  category : String
  sweetnessClass : String
  displayTitle : String
  colorIndicator : String
  emoji : String
  recommendation : String
  characteristics : List String
  qualityMetrics : QualityMetrics
  method : String
  processingTime : ℚ
  deriving Repr, DecidableEq

structure BoundingBox where
  x : ℚ
  y : ℚ
  width : ℚ
  height : ℚ
  deriving Repr, DecidableEq

inductive Status where
  | success
  | no_pineapple
  | error
  deriving Repr, DecidableEq

structure TransformedAnalysisResult where
  isPineapple : Bool
  detectionConfidence : ℚ
  boundingBox : Option BoundingBox
  sweetness : Option SweetnessInfo
  status : Status
  message : String
  processingTime : ℚ
  deriving Repr, DecidableEq

/-! ## Score transformer (`src/App.js` lines 988–1048) -/

/-- `convertClassToSweetness(prediction, probabilities)`. -/
def convertClassToSweetness (prediction : String)
    (probabilities : Option Probabilities) : ℚ :=
  match probabilities with
  | some p =>
      let high := jsOrZero p.High * 95
      let medium := jsOrZero p.Medium * 65
      let low := jsOrZero p.Low * 25
      ((mathRound (high + medium + low) : ℤ) : ℚ)
  | none =>
      match jsToLowerCase prediction with
      | "high" => 85
      | "medium" => 65
      | "low" => 35
      | _ => 50

/-- `getSweetnessCategory(sweetness)`. -/
def getSweetnessCategory (sweetness : ℚ) : String :=
  if sweetness ≥ 80 then "High Sweetness"
  else if sweetness ≥ 60 then "Medium Sweetness"
  else if sweetness ≥ 40 then "Low Sweetness"
  else "Very Low Sweetness"

/-- `getDisplayTitle(sweetness)`. -/
def getDisplayTitle (sweetness : ℚ) : String :=
  if sweetness ≥ 75 then "High"
  else if sweetness ≥ 60 then "Medium"
  else if sweetness ≥ 45 then "Low"
  else "Very Low"

/-- `getColorIndicator(sweetness)`. -/
def getColorIndicator (sweetness : ℚ) : String :=
  if sweetness ≥ 75 then "#22C55E"
  else if sweetness ≥ 60 then "#3B82F6"
  else if sweetness ≥ 45 then "#F59E0B"
  else "#6B7280"

/-- `getRecommendation(sweetness)`. -/
def getRecommendation (sweetness : ℚ) : String :=
  if sweetness ≥ 75 then "Perfect for eating"
  else if sweetness ≥ 60 then "Great for most uses"
  else if sweetness ≥ 45 then "Best for cooking"
  else "Wait a few days"

/-- The bounding box derived from the first detection
(`transformBackendResponse` lines 930–941). -/
def boundingBoxFor (data : BackendPredictionResponse) : Option BoundingBox :=
  match data.detections with
  | [] => none
  | d :: _ =>
      let (x1, y1, x2, y2) := d.bbox
      some { x := x1, y := y1, width := x2 - x1, height := y2 - y1 }

/-- The sweetness assessment computed by `transformBackendResponse`
(lines 943–972): built only when the pineapple was detected AND the
predicted class is truthy AND the confidence is not null. -/
def sweetnessFor (data : BackendPredictionResponse)
    (processingTime : ℚ) : Option SweetnessInfo :=
  match data.prediction, data.confidence with
    | some pred, some conf =>
        if data.is_pineapple && !pred.isEmpty then
          let sweetnessPercentage := convertClassToSweetness pred data.probabilities
          some
            { sweetness := sweetnessPercentage
              confidence := conf
              category := getSweetnessCategory sweetnessPercentage
              sweetnessClass := pred
              displayTitle := getDisplayTitle sweetnessPercentage
              colorIndicator := getColorIndicator sweetnessPercentage
              emoji := "🍍"
              recommendation := getRecommendation sweetnessPercentage
              characteristics :=
                [ "Sweetness: " ++ ratStr sweetnessPercentage ++ "%",
                  "Confidence: " ++ toFixed0 (conf * 100) ++ "%",
                  "Method: Backend Analysis",
                  "Detection: Pineapple" ]
              qualityMetrics :=
                { ripeness :=
                    if sweetnessPercentage ≥ 70 then "Ready"
                    else if sweetnessPercentage ≥ 50 then "Good" else "Wait"
                  eatingExperience :=
                    if sweetnessPercentage ≥ 70 then "Great"
                    else if sweetnessPercentage ≥ 50 then "Good" else "OK"
                  bestUse :=
                    if sweetnessPercentage ≥ 60 then "Eat fresh" else "Cook with it" }
              method := "backend_analysis"
              processingTime := processingTime }
        else none
    | _, _ => none

/-- `transformBackendResponse(data, processingTime)` (lines 928–983). -/
def transformBackendResponse (data : BackendPredictionResponse)
    (processingTime : ℚ) : TransformedAnalysisResult :=
  { isPineapple := data.is_pineapple
    detectionConfidence := data.detection_confidence
    boundingBox := boundingBoxFor data
    sweetness := sweetnessFor data processingTime
    status := if data.is_pineapple then Status.success else Status.no_pineapple
    message :=
      if data.is_pineapple then "Analysis completed successfully"
      else "No pineapple detected in the image"
    processingTime := processingTime }

/-! ## Errors (`src/utils/errorHandler.ts`) -/

/-- Thrown JS values: `NetworkError`, `BackendError`, and generic `Error`s
(the latter including `AbortError` and JSON `SyntaxError`s). -/
inductive JsError where
  | networkErr (message code : String)
  | backendErr (message code : String) (statusCode : Option Nat)
  | jsErr (name message : String)
  deriving Repr, DecidableEq

/-- `error.message`. -/
def JsError.message : JsError → String
  | .networkErr m _ => m
  | .backendErr m _ _ => m
  | .jsErr _ m => m

structure ApiError where
  code : String
  message : String
  deriving Repr, DecidableEq

/-- `handleApiError(error)` (`src/utils/errorHandler.ts` lines 38–120). -/
def handleApiError (e : JsError) : ApiError :=
  if includesSub e.message "timeout" then
    ⟨"TIMEOUT", "Request timed out. Please check your internet connection and try again."⟩
  else if includesSub e.message "Network request failed" || includesSub e.message "fetch" then
    ⟨"NETWORK_FAILED", "Unable to connect to the server. Please check that the backend is running."⟩
  else
    match e with
    | .backendErr msg _ statusCode =>
        match statusCode with
        | some 400 => ⟨"BAD_REQUEST", "Invalid request. Please check your image and try again."⟩
        | some 413 => ⟨"FILE_TOO_LARGE", "Image file is too large. Please use an image smaller than 10MB."⟩
        | some 415 => ⟨"UNSUPPORTED_FORMAT", "Unsupported image format. Please use JPG, PNG, or WebP."⟩
        | some 500 => ⟨"SERVER_ERROR", "Server error occurred during analysis. Please try again."⟩
        | _ => ⟨"BACKEND_ERROR", "Server error (" ++ optNatStr statusCode ++ "): " ++ msg⟩
    | _ =>
        if includesSub e.message "JSON" then
          ⟨"INVALID_RESPONSE", "Received invalid response from server. Please try again."⟩
        else if includesSub e.message "model" || includesSub e.message "analysis" then
          ⟨"ANALYSIS_ERROR", "Failed to analyze image. The AI model may be unavailable."⟩
        else
          ⟨"UNKNOWN_ERROR",
            if e.message = "" then "An unexpected error occurred. Please try again." else e.message⟩

/-! ## The network collaborator -/

instance {ε α : Type} [DecidableEq ε] [DecidableEq α] : DecidableEq (Except ε α) := fun a b =>
  match a, b with
  | .error x, .error y =>
      if h : x = y then isTrue (by rw [h]) else isFalse (by intro c; cases c; exact h rfl)
  | .ok x, .ok y =>
      if h : x = y then isTrue (by rw [h]) else isFalse (by intro c; cases c; exact h rfl)
  | .error _, .ok _ => isFalse (by intro c; cases c)
  | .ok _, .error _ => isFalse (by intro c; cases c)

/-- One `fetch` outcome chosen by the environment: either the promise
rejects (with an error name and message) or a response arrives. The body
field is the result of `response.json()` (only consulted for `/predict`
responses). -/
inductive FetchOutcome where
  | fail (name message : String)
  | resp (status : Nat) (statusText : String)
      (body : Except JsError BackendPredictionResponse)
  deriving Repr, DecidableEq

structure JsResponse where
  status : Nat
  statusText : String
  body : Except JsError BackendPredictionResponse
  deriving Repr, DecidableEq

/-- `response.ok`: status in the range 200–299. -/
def JsResponse.ok (r : JsResponse) : Bool :=
  decide (200 ≤ r.status) && decide (r.status ≤ 299)

/-- The behaviour of the network collaborator and the local database during
one `analyzePineapple` call, indexed by call site (and by iteration /
attempt number for the loops). -/
structure Env where
  connCheck : FetchOutcome
  quickTest : FetchOutcome
  warmTest : Nat → FetchOutcome
  warmHealth : Nat → FetchOutcome
  warmPredict : Nat → FetchOutcome
  upload : Nat → FetchOutcome
  dbOk : Bool

/-! ## Probes (`testConnectivity`, `checkNetworkConnectivity`) -/

/-- `testConnectivity()` (lines 493–523): `ok` → true, `502` → false,
other statuses → `status < 500`, thrown errors → false. -/
def testConnectivity (o : FetchOutcome) : Bool :=
  match o with
  | .fail _ _ => false
  | .resp s _ _ =>
      if 200 ≤ s ∧ s ≤ 299 then true
      else if s = 502 then false
      else decide (s < 500)

/-- `checkNetworkConnectivity()` (lines 1131–1166): returns the connected
flag and, when not connected, the error string. -/
def checkNetworkConnectivity (o : FetchOutcome) : Bool × Option String :=
  match o with
  | .fail _ m => (false, some m)
  | .resp s _ _ =>
      if 200 ≤ s ∧ s ≤ 299 then (true, none)
      else (false, some ("Server responded with status " ++ toString s))

/-- The message of the `NetworkError` that `makeRequest` builds for a raw
`Network request failed` fetch error. -/
def networkFailedMessage (baseUrl : String) : String :=
  "Network connection failed. Please check:\n1. Backend server is running on " ++ baseUrl ++
    "\n2. Device is connected to the same network\n3. Firewall allows connections to port 8000\n4. Try testing " ++
    baseUrl ++ "/health in a browser"

/-- `makeRequest(endpoint, options)` (lines 1053–1129): a resolved fetch is
returned as-is; an `AbortError` becomes a `TIMEOUT` `NetworkError`, a
`Network request failed` error becomes a `NETWORK_FAILED` `NetworkError`,
other errors are rethrown. -/
def makeRequest (baseUrl : String) (timeout : Nat) (o : FetchOutcome) :
    Except JsError JsResponse :=
  match o with
  | .resp s st b => .ok ⟨s, st, b⟩
  | .fail name msg =>
      if name = "AbortError" then
        .error (.networkErr ("Request timeout after " ++ toString timeout ++ "ms") "TIMEOUT")
      else if includesSub msg "Network request failed" then
        .error (.networkErr (networkFailedMessage baseUrl) "NETWORK_FAILED")
      else .error (.jsErr name msg)

/-! ## Warm-up loop (`warmUpServer`, lines 528–630)

The wall-clock budget (`WARMUP_TIMEOUT` at a 2 s poll interval) is modelled
as an iteration fuel: fuel 0 is the budget expiring. -/

structure WarmOut where
  ready : Bool
  polls : Nat
  deriving Repr, DecidableEq

/-- Warm-up step 1 (lines 542–548): `testPassed` after iteration `i`. -/
def warmGateA (env : Env) (i : Nat) (t : Bool) : Bool :=
  if t then t else testConnectivity (env.warmTest i)

/-- Warm-up step 2 (lines 551–577): `healthPassed` after iteration `i`,
given the updated `testPassed` value. -/
def warmGateB (env : Env) (i : Nat) (tNew h : Bool) : Bool :=
  if tNew && !h then
    match env.warmHealth i with
    | .fail _ _ => h
    | .resp s _ _ => if 200 ≤ s ∧ s ≤ 299 then true else h
  else h

/-- Warm-up step 3 (lines 580–612): whether the synthetic POST to the
predict endpoint confirms readiness (`422`/`200`/`400`). -/
def warmGateC (env : Env) (i : Nat) (tNew hNew : Bool) : Bool :=
  if tNew && hNew then
    match env.warmPredict i with
    | .fail _ _ => false
    | .resp s _ _ => s == 422 || s == 200 || s == 400
  else false

/-- One pass of the warm-up polling loop; `polls` counts the sleeps
executed. State `(t, h)` is `(testPassed, healthPassed)`. -/
def warmUpAux (env : Env) : Nat → Nat → Bool → Bool → WarmOut
  | 0, _, t, h => ⟨t || h, 0⟩
  | fuel + 1, i, t, h =>
      let t' := warmGateA env i t
      let h' := warmGateB env i t' h
      if warmGateC env i t' h' then ⟨true, 0⟩
      else if t' && h' then ⟨true, 0⟩
      else
        let rest := warmUpAux env fuel (i + 1) t' h'
        ⟨rest.ready, rest.polls + 1⟩

/-- `warmUpServer()` with the wall-clock budget given as iteration fuel. -/
def warmUpServer (env : Env) (fuel : Nat) : WarmOut :=
  warmUpAux env fuel 0 false false

/-! ## Upload retry loop (lines 707–808) -/

/-- Observable events of the retry loop: issuing attempt `k` with the
timeout in force, and sleeping between attempts. -/
inductive Ev where
  | attemptEv (attempt : Nat) (timeout : Nat)
  | sleepEv (ms : Nat)
  deriving Repr, DecidableEq

/-- Exit of the retry loop: `done` is a normal exit (break on success, or
the loop condition ending) carrying `lastResponse`/`lastError`; `thrown` is
an error escaping the loop. Both record `config.timeout` as left by the
loop and the event trace. -/
inductive LoopOut where
  | done (lastResponse : Option JsResponse) (lastError : Option JsError)
      (timeout : Nat) (trace : List Ev)
  | thrown (e : JsError) (timeout : Nat) (trace : List Ev)
  deriving Repr, DecidableEq

/-- Prepend events to a loop exit's trace. -/
def LoopOut.prepend (evs : List Ev) : LoopOut → LoopOut
  | .done r e t tr => .done r e t (evs ++ tr)
  | .thrown e t tr => .thrown e t (evs ++ tr)

/-- The progressive per-attempt upload timeout (lines 720–722). -/
def progressiveTimeout (attempt : Nat) : Nat :=
  if API_CONFIG.PROGRESSIVE_TIMEOUT then
    min (30000 + attempt * 15000) API_CONFIG.UPLOAD_TIMEOUT
  else API_CONFIG.UPLOAD_TIMEOUT

/-- The progressive inter-attempt retry delay (lines 742–744 and 768–770). -/
def retryDelayFor (attempt : Nat) : Nat :=
  if API_CONFIG.PROGRESSIVE_DELAY then
    min (API_CONFIG.RETRY_DELAY * attempt) API_CONFIG.MAX_RETRY_DELAY
  else API_CONFIG.RETRY_DELAY

/-- The retryability test on a thrown error (lines 761–765): substring
match on the error message. -/
def isRetryableError (e : JsError) : Bool :=
  includesSub e.message "timeout" || includesSub e.message "Aborted" ||
    includesSub e.message "Network request failed"

/-- The `BackendError` thrown for a non-retryable (or final-attempt)
non-2xx response (lines 751–755). -/
def backendErrFor (s : Nat) (st : String) : JsError :=
  .backendErr ("Backend error: " ++ st) "BACKEND_ERROR" (some s)

/-- The body of the retry `for` loop (lines 715–786), recursing on the
number of remaining iterations. `config.timeout` is set to the progressive
timeout before each request and is NOT reset inside the loop. -/
def retryLoopAux (env : Env) (baseUrl : String) :
    Nat → Nat → Option JsResponse → Option JsError → Nat → LoopOut
  | 0, _, lastR, lastE, t0 => .done lastR lastE t0 []
  | fuel + 1, attempt, lastR, lastE, _t0 =>
      let t := progressiveTimeout attempt
      match makeRequest baseUrl t (env.upload attempt) with
      | .ok r =>
          if r.ok then .done (some r) lastE t [.attemptEv attempt t]
          else if (r.status = 500 ∨ r.status = 502) ∧ attempt < API_CONFIG.MAX_RETRIES then
            (retryLoopAux env baseUrl fuel (attempt + 1) (some r) lastE t).prepend
              [.attemptEv attempt t, .sleepEv (retryDelayFor attempt)]
          else
            let e := backendErrFor r.status r.statusText
            if attempt < API_CONFIG.MAX_RETRIES ∧ isRetryableError e then
              (retryLoopAux env baseUrl fuel (attempt + 1) (some r) (some e) t).prepend
                [.attemptEv attempt t, .sleepEv (retryDelayFor attempt)]
            else .thrown e t [.attemptEv attempt t]
      | .error e =>
          if attempt < API_CONFIG.MAX_RETRIES ∧ isRetryableError e then
            (retryLoopAux env baseUrl fuel (attempt + 1) lastR (some e) t).prepend
              [.attemptEv attempt t, .sleepEv (retryDelayFor attempt)]
          else .thrown e t [.attemptEv attempt t]

/-- The retry loop for attempts `1..MAX_RETRIES`, starting from the
incoming `config.timeout`. -/
def retryLoop (env : Env) (baseUrl : String) (t0 : Nat) : LoopOut :=
  retryLoopAux env baseUrl API_CONFIG.MAX_RETRIES 1 none none t0

/-! ## `analyzePineapple` (lines 635–851) -/

/-- The `BackendError` built after the loop when no successful response is
held (lines 803–807); `lastResponse?.status || 500` treats a missing or
zero status as 500. -/
def exhaustedError (r : Option JsResponse) : JsError :=
  .backendErr "Backend server is not available. Please check that the server is running."
    "BACKEND_ERROR"
    (some (match r with
           | some resp => if resp.status = 0 then 500 else resp.status
           | none => 500))

/-- The body of `analyzePineapple` inside the outer `try` (lines 638–836):
anything the code throws is an `Except.error` propagated to the `catch`.
Returns the result together with the service configuration as left behind
by the call. The elapsed-time reads of `Date.now() - startTime` are the
`elapsed` parameter. -/
def analyzeBody (env : Env) (cfg : ApiConfig) (warmFuel : Nat) (elapsed : ℚ) :
    Except JsError TransformedAnalysisResult × ApiConfig :=
  match checkNetworkConnectivity env.connCheck with
  | (false, errMsg) =>
      (.error (.networkErr ("Network connectivity failed: " ++ errMsg.getD "undefined")
          "CONNECTIVITY_FAILED"), cfg)
  | (true, _) =>
      let isConnected := testConnectivity env.quickTest
      let _warmedUp := if isConnected then true else (warmUpServer env warmFuel).ready
      let originalTimeout := cfg.timeout
      match retryLoop env cfg.baseUrl cfg.timeout with
      | .thrown e t _ => (.error e, { cfg with timeout := t })
      | .done lastResponse _lastError _t _ =>
          let cfg' := { cfg with timeout := originalTimeout }
          match lastResponse with
          | some r =>
              if r.ok then
                match r.body with
                | .error e => (.error e, cfg')
                | .ok data =>
                    let result := transformBackendResponse data elapsed
                    (.ok result, cfg')
              else (.error (exhaustedError (some r)), cfg')
          | none => (.error (exhaustedError none), cfg')

/-- The error outcome built by the `catch` clause (lines 842–849). -/
def errorOutcome (msg : String) (elapsed : ℚ) : TransformedAnalysisResult :=
  { isPineapple := false
    detectionConfidence := 0
    boundingBox := none
    sweetness := none
    status := Status.error
    message := msg
    processingTime := elapsed }

/-- `analyzePineapple(imageUri)`: the body wrapped in the outer
`try`/`catch`; every thrown error is normalized through `handleApiError`
into an error outcome. -/
def analyzePineapple (env : Env) (cfg : ApiConfig) (warmFuel : Nat) (elapsed : ℚ) :
    TransformedAnalysisResult × ApiConfig :=
  match analyzeBody env cfg warmFuel elapsed with
  | (.ok r, cfg') => (r, cfg')
  | (.error e, cfg') => (errorOutcome (handleApiError e).message elapsed, cfg')

/-! ## Reference definitions taken from the spec's words -/

/-- The reference definition of `convertClassToSweetness` stated by the
spec (claim C2): a weighted average when probabilities are present, else a
fixed lookup on the class label (`High → 85`, `Medium → 65`, `Low → 35`,
unrecognized/absent → `50`). -/
def specConvertClassToSweetness (prediction : String)
    (probabilities : Option Probabilities) : ℚ :=
  match probabilities with
  | some p =>
      ((mathRound (95 * p.High.getD 0 + 65 * p.Medium.getD 0 + 25 * p.Low.getD 0) : ℤ) : ℚ)
  | none =>
      if prediction = "High" then 85
      else if prediction = "Medium" then 65
      else if prediction = "Low" then 35
      else 50

/-- The amended reference for claim C2: identical weighted average, but the
fallback lookup matches the class label case-insensitively, as the code's
`toLowerCase` does. -/
def specConvertClassToSweetnessCaseless (prediction : String)
    (probabilities : Option Probabilities) : ℚ :=
  match probabilities with
  | some p =>
      ((mathRound (95 * p.High.getD 0 + 65 * p.Medium.getD 0 + 25 * p.Low.getD 0) : ℤ) : ℚ)
  | none =>
      if jsToLowerCase prediction = "high" then 85
      else if jsToLowerCase prediction = "medium" then 65
      else if jsToLowerCase prediction = "low" then 35
      else 50

/-- A present probability entry lies in `[0,1]` (claim C3's hypothesis). -/
def probEntryValid (o : Option ℚ) : Prop :=
  match o with
  | none => True
  | some v => 0 ≤ v ∧ v ≤ 1

/-- Every present entry of the probabilities object lies in `[0,1]`. -/
def probsValid : Option Probabilities → Prop
  | none => True
  | some p => probEntryValid p.High ∧ probEntryValid p.Medium ∧ probEntryValid p.Low

/-! ## Helper lemmas -/

theorem jsOrZero_eq_getD (o : Option ℚ) : jsOrZero o = o.getD 0 := by
  cases o with
  | none => rfl
  | some v =>
      by_cases h : v = 0 <;> simp [jsOrZero, h]

theorem jsOrZero_bounds {o : Option ℚ} (h : probEntryValid o) :
    0 ≤ jsOrZero o ∧ jsOrZero o ≤ 1 := by
  cases o with
  | none => exact ⟨le_refl 0, by norm_num [jsOrZero]⟩
  | some v =>
      obtain ⟨h0, h1⟩ := h
      by_cases hv : v = 0
      · simp [jsOrZero, hv]
      · simp only [jsOrZero, if_neg hv]
        exact ⟨h0, h1⟩

theorem mathRound_nonneg {q : ℚ} (h : 0 ≤ q) : 0 ≤ mathRound q := by
  unfold mathRound
  exact Int.le_floor.mpr (by push_cast; linarith)

theorem mathRound_le_of_le {q : ℚ} {n : ℤ} (h : q ≤ n) : mathRound q ≤ n := by
  unfold mathRound
  have : (q + 1/2 : ℚ) < (n : ℚ) + 1 := by linarith
  have hlt : ⌊(q + 1/2 : ℚ)⌋ < n + 1 := Int.floor_lt.mpr (by push_cast; linarith)
  omega

/-- The transformer never produces an `error` status: that status is built
only by `analyzePineapple`'s catch clause. -/
theorem transformBackendResponse_status_ne_error
    (data : BackendPredictionResponse) (pt : ℚ) :
    (transformBackendResponse data pt).status ≠ Status.error := by
  unfold transformBackendResponse
  cases data.is_pineapple <;> simp

/-- A four-tier threshold ladder hits exactly the tier its interval
dictates. -/
theorem ladder_char {a b c : ℚ} {A B C D : String} (hab : b < a) (hbc : c < b)
    (hAB : A ≠ B) (hAC : A ≠ C) (hAD : A ≠ D) (hBC : B ≠ C) (hBD : B ≠ D)
    (hCD : C ≠ D) (s : ℚ) :
    ((if s ≥ a then A else if s ≥ b then B else if s ≥ c then C else D) = A ↔ a ≤ s) ∧
    ((if s ≥ a then A else if s ≥ b then B else if s ≥ c then C else D) = B ↔ b ≤ s ∧ s < a) ∧
    ((if s ≥ a then A else if s ≥ b then B else if s ≥ c then C else D) = C ↔ c ≤ s ∧ s < b) ∧
    ((if s ≥ a then A else if s ≥ b then B else if s ≥ c then C else D) = D ↔ s < c) := by
  split_ifs with h1 h2 h3
  · exact ⟨⟨fun _ => h1, fun _ => rfl⟩,
      ⟨fun h => absurd h hAB, fun h => absurd h1 (not_le.mpr h.2)⟩,
      ⟨fun h => absurd h hAC, fun h => absurd h1 (not_le.mpr (h.2.trans hab))⟩,
      ⟨fun h => absurd h hAD, fun h => absurd h1 (not_le.mpr ((h.trans hbc).trans hab))⟩⟩
  · exact ⟨⟨fun h => absurd h hAB.symm, fun h => absurd h h1⟩,
      ⟨fun _ => ⟨h2, lt_of_not_ge h1⟩, fun _ => rfl⟩,
      ⟨fun h => absurd h hBC, fun h => absurd h2 (not_le.mpr h.2)⟩,
      ⟨fun h => absurd h hBD, fun h => absurd h2 (not_le.mpr (h.trans hbc))⟩⟩
  · exact ⟨⟨fun h => absurd h hAC.symm, fun h => absurd h h1⟩,
      ⟨fun h => absurd h hBC.symm, fun h => absurd h.1 h2⟩,
      ⟨fun _ => ⟨h3, lt_of_not_ge h2⟩, fun _ => rfl⟩,
      ⟨fun h => absurd h hCD, fun h => absurd h3 (not_le.mpr h)⟩⟩
  · exact ⟨⟨fun h => absurd h hAD.symm, fun h => absurd h h1⟩,
      ⟨fun h => absurd h hBD.symm, fun h => absurd h.1 h2⟩,
      ⟨fun h => absurd h hCD.symm, fun h => absurd h.1 h3⟩,
      ⟨fun _ => lt_of_not_ge h3, fun _ => rfl⟩⟩

theorem getSweetnessCategory_char (s : ℚ) :
    (getSweetnessCategory s = "High Sweetness" ↔ 80 ≤ s) ∧
    (getSweetnessCategory s = "Medium Sweetness" ↔ 60 ≤ s ∧ s < 80) ∧
    (getSweetnessCategory s = "Low Sweetness" ↔ 40 ≤ s ∧ s < 60) ∧
    (getSweetnessCategory s = "Very Low Sweetness" ↔ s < 40) := by
  unfold getSweetnessCategory
  exact ladder_char (by norm_num) (by norm_num) (by decide) (by decide)
    (by decide) (by decide) (by decide) (by decide) s

theorem getDisplayTitle_char (s : ℚ) :
    (getDisplayTitle s = "High" ↔ 75 ≤ s) ∧
    (getDisplayTitle s = "Medium" ↔ 60 ≤ s ∧ s < 75) ∧
    (getDisplayTitle s = "Low" ↔ 45 ≤ s ∧ s < 60) ∧
    (getDisplayTitle s = "Very Low" ↔ s < 45) := by
  unfold getDisplayTitle
  exact ladder_char (by norm_num) (by norm_num) (by decide) (by decide)
    (by decide) (by decide) (by decide) (by decide) s

theorem getColorIndicator_char (s : ℚ) :
    (getColorIndicator s = "#22C55E" ↔ 75 ≤ s) ∧
    (getColorIndicator s = "#3B82F6" ↔ 60 ≤ s ∧ s < 75) ∧
    (getColorIndicator s = "#F59E0B" ↔ 45 ≤ s ∧ s < 60) ∧
    (getColorIndicator s = "#6B7280" ↔ s < 45) := by
  unfold getColorIndicator
  exact ladder_char (by norm_num) (by norm_num) (by decide) (by decide)
    (by decide) (by decide) (by decide) (by decide) s

theorem getRecommendation_char (s : ℚ) :
    (getRecommendation s = "Perfect for eating" ↔ 75 ≤ s) ∧
    (getRecommendation s = "Great for most uses" ↔ 60 ≤ s ∧ s < 75) ∧
    (getRecommendation s = "Best for cooking" ↔ 45 ≤ s ∧ s < 60) ∧
    (getRecommendation s = "Wait a few days" ↔ s < 45) := by
  unfold getRecommendation
  exact ladder_char (by norm_num) (by norm_num) (by decide) (by decide)
    (by decide) (by decide) (by decide) (by decide) s

theorem sweetnessFor_ne_none_iff (data : BackendPredictionResponse) (pt : ℚ) :
    sweetnessFor data pt ≠ none ↔
      data.is_pineapple = true ∧
        (∃ pred, data.prediction = some pred ∧ pred ≠ "") ∧ data.confidence ≠ none := by
  unfold sweetnessFor
  rcases hp : data.prediction with _ | pred <;> rcases hc : data.confidence with _ | conf <;>
    simp
  cases hip : data.is_pineapple
  · simp
  · by_cases he : pred = ""
    · subst he
      simp
      decide
    · have hb : pred.isEmpty = false :=
        Bool.eq_false_iff.mpr (fun hbt => he ((String.isEmpty_iff pred).mp hbt))
      simp [he, hb]

/-! ## Claim theorems -/

/-- Counterexample to claim C1: a backend response with the detection flag
true but a null predicted class and a null sweetness confidence is
transformed into an outcome whose status is `success` while its sweetness
assessment is null, refuting "whenever status is 'success', it is non-null
— including responses where the detection flag is true but the predicted
class or sweetness confidence is absent". -/
theorem transform_success_with_null_sweetness_cex :
    (transformBackendResponse
        { is_pineapple := true, detection_confidence := 9/10, detections := [],
          prediction := none, confidence := none, probabilities := none } 0).status =
      Status.success ∧
    (transformBackendResponse
        { is_pineapple := true, detection_confidence := 9/10, detections := [],
          prediction := none, confidence := none, probabilities := none } 0).sweetness =
      none :=
  ⟨rfl, rfl⟩

/-- Claim C1, amended: for every backend response processed by the
transformer, the status is `success` exactly when the detection flag is
true, and the sweetness assessment is non-null exactly when the detection
flag is true AND the predicted class is present and non-empty AND the
sweetness confidence is non-null. Hence a non-`success` status implies a
null sweetness and a non-null sweetness implies `success`, but a response
with the detection flag true and an absent class or confidence yields
status `success` with a null sweetness. -/
theorem transform_status_sweetness_characterization :
    ∀ (data : BackendPredictionResponse) (pt : ℚ),
      ((transformBackendResponse data pt).status = Status.success ↔
        data.is_pineapple = true) ∧
      ((transformBackendResponse data pt).sweetness ≠ none ↔
        data.is_pineapple = true ∧
          (∃ pred, data.prediction = some pred ∧ pred ≠ "") ∧
          data.confidence ≠ none) := by
  intro data pt
  constructor
  · show (if data.is_pineapple then Status.success else Status.no_pineapple) = _ ↔ _
    cases data.is_pineapple <;> simp
  · exact sweetnessFor_ne_none_iff data pt

/-- Counterexample to claim C2: on the class label `"high"` (which the
spec's reference lookup does not recognize, while the code's
case-insensitive lookup does), the code returns 85 but the reference
returns 50. -/
theorem convertClassToSweetness_reference_mismatch_cex :
    convertClassToSweetness "high" none = 85 ∧
    specConvertClassToSweetness "high" none = 50 ∧
    convertClassToSweetness "high" none ≠ specConvertClassToSweetness "high" none :=
  ⟨by decide, by decide, by decide⟩

/-- Claim C2, amended: `convertClassToSweetness` equals the reference
definition in which the probabilities branch is the stated weighted
average (missing entries as 0, no renormalization) and the fallback lookup
matches the class label case-insensitively (`high → 85`, `medium → 65`,
`low → 35`, otherwise `50`). -/
theorem convertClassToSweetness_eq_caseless_reference :
    ∀ (prediction : String) (probabilities : Option Probabilities),
      convertClassToSweetness prediction probabilities =
        specConvertClassToSweetnessCaseless prediction probabilities := by
  intro pred probs
  cases probs with
  | none =>
      simp only [convertClassToSweetness, specConvertClassToSweetnessCaseless]
      split <;> simp_all
  | some p =>
      simp only [convertClassToSweetness, specConvertClassToSweetnessCaseless,
        jsOrZero_eq_getD]
      have harg : p.High.getD 0 * 95 + p.Medium.getD 0 * 65 + p.Low.getD 0 * 25 =
          95 * p.High.getD 0 + 65 * p.Medium.getD 0 + 25 * p.Low.getD 0 := by ring
      rw [harg]

/-- Counterexample to claim C3: with every class probability present and
equal to 1 (each within `[0,1]`), the returned score is 185, outside
`[0,100]`. -/
theorem sweetness_score_range_cex :
    probsValid (some ⟨some 1, some 1, some 1⟩) ∧
    convertClassToSweetness "High" (some ⟨some 1, some 1, some 1⟩) = 185 ∧
    ¬(convertClassToSweetness "High" (some ⟨some 1, some 1, some 1⟩) ≤ 100) := by
  refine ⟨?_, ?_, ?_⟩
  · norm_num [probsValid, probEntryValid]
  · norm_num [convertClassToSweetness, jsOrZero, mathRound]
  · norm_num [convertClassToSweetness, jsOrZero, mathRound]

/-- Claim C3, amended: for every class label and probabilities object whose
present entries lie in `[0,1]` (no normalization assumed), the returned
sweetness score is an integer in `[0,185]` (185 being attained at all-ones
probabilities, per the counterexample). -/
theorem convertClassToSweetness_integer_bounds :
    ∀ (prediction : String) (probabilities : Option Probabilities),
      probsValid probabilities →
      0 ≤ convertClassToSweetness prediction probabilities ∧
      convertClassToSweetness prediction probabilities ≤ 185 ∧
      ∃ k : ℤ, convertClassToSweetness prediction probabilities = (k : ℚ) := by
  intro pred probs hv
  cases probs with
  | none =>
      simp only [convertClassToSweetness]
      split
      · exact ⟨by norm_num, by norm_num, 85, by norm_num⟩
      · exact ⟨by norm_num, by norm_num, 65, by norm_num⟩
      · exact ⟨by norm_num, by norm_num, 35, by norm_num⟩
      · exact ⟨by norm_num, by norm_num, 50, by norm_num⟩
  | some p =>
      obtain ⟨hH, hM, hL⟩ := hv
      obtain ⟨h1, h2⟩ := jsOrZero_bounds hH
      obtain ⟨h3, h4⟩ := jsOrZero_bounds hM
      obtain ⟨h5, h6⟩ := jsOrZero_bounds hL
      have e95 : (0:ℚ) ≤ 95 := by norm_num
      have e65 : (0:ℚ) ≤ 65 := by norm_num
      have e25 : (0:ℚ) ≤ 25 := by norm_num
      simp only [convertClassToSweetness]
      refine ⟨?_, ?_, ⟨mathRound _, rfl⟩⟩
      · exact_mod_cast mathRound_nonneg (by
          have := mul_nonneg h1 e95
          have := mul_nonneg h3 e65
          have := mul_nonneg h5 e25
          linarith)
      · exact_mod_cast mathRound_le_of_le (n := 185) (by
          have := mul_le_mul_of_nonneg_right h2 e95
          have := mul_le_mul_of_nonneg_right h4 e65
          have := mul_le_mul_of_nonneg_right h6 e25
          push_cast
          linarith)

/-- Witness for C3's amended theorem at the spec's end-to-end example
probabilities `{High: 0.70, Medium: 0.25, Low: 0.05}`. -/
theorem convertClassToSweetness_integer_bounds_witness :
    probsValid (some ⟨some (7/10), some (1/4), some (1/20)⟩) ∧
    (0 ≤ convertClassToSweetness "High" (some ⟨some (7/10), some (1/4), some (1/20)⟩) ∧
     convertClassToSweetness "High" (some ⟨some (7/10), some (1/4), some (1/20)⟩) ≤ 185 ∧
     ∃ k : ℤ,
       convertClassToSweetness "High" (some ⟨some (7/10), some (1/4), some (1/20)⟩) = (k : ℚ)) :=
  ⟨by norm_num [probsValid, probEntryValid],
   convertClassToSweetness_integer_bounds "High" _ (by norm_num [probsValid, probEntryValid])⟩

/-- Claim C7: each of the four derived-label functions is total and
returns exactly one of its four enumerated tier values according to its
own threshold table (cut points 80/60/40 for the category and 75/60/45 for
the display title, color token and recommendation); and score 95 yields
category "High Sweetness", display title "High", the green color token and
recommendation "Perfect for eating". -/
theorem derived_label_functions_total :
    ∀ s : ℚ,
      ((getSweetnessCategory s = "High Sweetness" ↔ 80 ≤ s) ∧
       (getSweetnessCategory s = "Medium Sweetness" ↔ 60 ≤ s ∧ s < 80) ∧
       (getSweetnessCategory s = "Low Sweetness" ↔ 40 ≤ s ∧ s < 60) ∧
       (getSweetnessCategory s = "Very Low Sweetness" ↔ s < 40)) ∧
      ((getDisplayTitle s = "High" ↔ 75 ≤ s) ∧
       (getDisplayTitle s = "Medium" ↔ 60 ≤ s ∧ s < 75) ∧
       (getDisplayTitle s = "Low" ↔ 45 ≤ s ∧ s < 60) ∧
       (getDisplayTitle s = "Very Low" ↔ s < 45)) ∧
      ((getColorIndicator s = "#22C55E" ↔ 75 ≤ s) ∧
       (getColorIndicator s = "#3B82F6" ↔ 60 ≤ s ∧ s < 75) ∧
       (getColorIndicator s = "#F59E0B" ↔ 45 ≤ s ∧ s < 60) ∧
       (getColorIndicator s = "#6B7280" ↔ s < 45)) ∧
      ((getRecommendation s = "Perfect for eating" ↔ 75 ≤ s) ∧
       (getRecommendation s = "Great for most uses" ↔ 60 ≤ s ∧ s < 75) ∧
       (getRecommendation s = "Best for cooking" ↔ 45 ≤ s ∧ s < 60) ∧
       (getRecommendation s = "Wait a few days" ↔ s < 45)) ∧
      (getSweetnessCategory 95 = "High Sweetness" ∧ getDisplayTitle 95 = "High" ∧
       getColorIndicator 95 = "#22C55E" ∧ getRecommendation 95 = "Perfect for eating") := by
  intro s
  refine ⟨getSweetnessCategory_char s, getDisplayTitle_char s, getColorIndicator_char s,
    getRecommendation_char s, ?_, ?_, ?_, ?_⟩
  · exact (getSweetnessCategory_char 95).1.mpr (by norm_num)
  · exact (getDisplayTitle_char 95).1.mpr (by norm_num)
  · exact (getColorIndicator_char 95).1.mpr (by norm_num)
  · exact (getRecommendation_char 95).1.mpr (by norm_num)

/-! ## Concrete environments used by witnesses and counterexamples -/

/-- A placeholder `response.json()` result for responses whose body the
code never reads (health probes and the like). -/
def dummyBody : Except JsError BackendPredictionResponse :=
  .error (.jsErr "SyntaxError" "Unexpected token")

/-- A minimal successful prediction payload. -/
def sampleOkData : BackendPredictionResponse :=
  { is_pineapple := false, detection_confidence := 0, detections := [],
    prediction := none, confidence := none, probabilities := none }

/-- Claim C6: the upload timeout for retry attempt `k` equals
`min(30000 + k·15000, 120000)` (base 30 s, increment 15 s, ceiling
120 s = `UPLOAD_TIMEOUT`); it is monotonically non-decreasing in the
attempt number and never exceeds the ceiling. -/
theorem upload_timeout_progressive :
    ∀ j k : Nat, j ≤ k →
      progressiveTimeout j ≤ progressiveTimeout k ∧
      progressiveTimeout k ≤ API_CONFIG.UPLOAD_TIMEOUT ∧
      progressiveTimeout k = min (30000 + k * 15000) 120000 := by
  intro j k hjk
  simp [progressiveTimeout, API_CONFIG]
  omega

/-- Witness for C6 at attempts `j = 1 ≤ k = 3`. -/
theorem upload_timeout_progressive_witness :
    (1 : Nat) ≤ 3 ∧
    (progressiveTimeout 1 ≤ progressiveTimeout 3 ∧
     progressiveTimeout 3 ≤ API_CONFIG.UPLOAD_TIMEOUT ∧
     progressiveTimeout 3 = min (30000 + 3 * 15000) 120000) :=
  ⟨by norm_num, upload_timeout_progressive 1 3 (by norm_num)⟩

/-- An environment in which the server's gates all answer and the
synthetic warm-up POST persistently returns 502. -/
def warmEnv502 : Env :=
  { connCheck := .resp 200 "OK" dummyBody
    quickTest := .resp 200 "OK" dummyBody
    warmTest := fun _ => .resp 200 "OK" dummyBody
    warmHealth := fun _ => .resp 200 "OK" dummyBody
    warmPredict := fun _ => .resp 502 "Bad Gateway" dummyBody
    upload := fun _ => .fail "TypeError" "unused"
    dbOk := true }

/-- Counterexample to claim C9: with connectivity and health both passing
and the synthetic POST returning 502, warm-up reports ready in the very
same iteration with zero further polls — the loop does NOT keep polling on
a 502. -/
theorem warmup_502_exits_ready_cex :
    warmUpServer warmEnv502 45 = ⟨true, 0⟩ := by decide

/-- Claim C9, amended: a synthetic-POST status in {200, 400, 422} makes
warm-up report ready and exit immediately, and once the connectivity gate
and the health gate have both succeeded the loop exits ready in that same
iteration regardless of the synthetic POST's outcome — in particular a 502
response is logged as still-cold but does not cause further polling; the
loop keeps polling only while connectivity or health has not yet
succeeded. -/
theorem warmup_ready_gates :
    ∀ (env : Env) (fuel i : Nat) (t h : Bool),
      (warmGateA env i t = true →
        warmGateB env i (warmGateA env i t) h = true →
        warmUpAux env (fuel + 1) i t h = ⟨true, 0⟩) ∧
      (¬(warmGateA env i t = true ∧ warmGateB env i (warmGateA env i t) h = true) →
        warmUpAux env (fuel + 1) i t h =
          ⟨(warmUpAux env fuel (i + 1) (warmGateA env i t)
              (warmGateB env i (warmGateA env i t) h)).ready,
           (warmUpAux env fuel (i + 1) (warmGateA env i t)
              (warmGateB env i (warmGateA env i t) h)).polls + 1⟩) := by
  intro env fuel i t h
  constructor
  · intro ht hh
    simp only [ht] at hh
    simp [warmUpAux, ht, hh]
  · intro hno
    have hfalse : ((warmGateA env i t) && (warmGateB env i (warmGateA env i t) h)) = false := by
      cases ha : warmGateA env i t
      · simp [ha]
      · cases hb : warmGateB env i true h
        · simp [ha, hb]
        · exact absurd ⟨ha, by rw [ha]; exact hb⟩ hno
    have hc : warmGateC env i (warmGateA env i t) (warmGateB env i (warmGateA env i t) h)
        = false := by
      unfold warmGateC
      rw [hfalse]
      simp
    simp only [warmUpAux]
    rw [hc, hfalse]
    simp

/-- Witness for C9's amended theorem: in `warmEnv502` both gates pass in
iteration 0 and warm-up exits ready at once. -/
theorem warmup_ready_gates_witness :
    warmGateA warmEnv502 0 false = true ∧
    warmGateB warmEnv502 0 (warmGateA warmEnv502 0 false) false = true ∧
    warmUpAux warmEnv502 1 0 false false = ⟨true, 0⟩ :=
  ⟨by decide, by decide,
   (warmup_ready_gates warmEnv502 0 0 false false).1 (by decide) (by decide)⟩

/-! ## Lemmas about `analyzePineapple` -/

theorem string_append_ne_empty {s : String} (t : String) (hs : s ≠ "") :
    s ++ t ≠ "" := by
  intro h
  apply hs
  have hd := congrArg String.data h
  simp [String.data_append] at hd
  exact String.ext (by simp [hd.1])

/-- Every error message produced by `handleApiError` is non-empty. -/
theorem handleApiError_message_nonempty (e : JsError) :
    (handleApiError e).message ≠ "" := by
  cases e with
  | networkErr m c =>
      unfold handleApiError
      dsimp only [JsError.message]
      split_ifs with h1 h2 h3 h4 h5 <;> first | decide | exact h5
  | jsErr n m =>
      unfold handleApiError
      dsimp only [JsError.message]
      split_ifs with h1 h2 h3 h4 h5 <;> first | decide | exact h5
  | backendErr m c sc =>
      unfold handleApiError
      dsimp only [JsError.message]
      split_ifs with h1 h2
      · decide
      · decide
      · rcases sc with _ | n
        · exact string_append_ne_empty m (by decide)
        · split
          · decide
          · decide
          · decide
          · decide
          · exact string_append_ne_empty m
              (string_append_ne_empty "): "
                (string_append_ne_empty (optNatStr (some n)) (by decide)))

/-- `analyzePineapple` returns exactly the configuration state left behind
by its body: the catch clause does not touch the configuration. -/
theorem analyzePineapple_cfg (env : Env) (cfg : ApiConfig) (wf : Nat) (el : ℚ) :
    (analyzePineapple env cfg wf el).2 = (analyzeBody env cfg wf el).2 := by
  unfold analyzePineapple
  rcases h : analyzeBody env cfg wf el with ⟨res, c⟩
  cases res <;> simp

/-- Every `ok` result of the body is the transform of some backend
payload. -/
theorem analyzeBody_ok_transform (env : Env) (cfg : ApiConfig) (wf : Nat)
    (el : ℚ) (r : TransformedAnalysisResult) (cfg' : ApiConfig)
    (h : analyzeBody env cfg wf el = (Except.ok r, cfg')) :
    ∃ data, r = transformBackendResponse data el := by
  unfold analyzeBody at h
  split at h
  · simp at h
  · dsimp only at h
    split at h
    · simp at h
    · split at h
      · split at h
        · split at h
          · simp at h
          · next data hbody =>
              simp only [Prod.mk.injEq, Except.ok.injEq] at h
              exact ⟨data, h.1.symm⟩
        · simp at h
      · simp at h

/-- An environment whose very first connectivity probe rejects with a raw
network failure. -/
def envConnFail : Env :=
  { connCheck := .fail "TypeError" "Network request failed"
    quickTest := .fail "TypeError" "unused"
    warmTest := fun _ => .fail "TypeError" "unused"
    warmHealth := fun _ => .fail "TypeError" "unused"
    warmPredict := fun _ => .fail "TypeError" "unused"
    upload := fun _ => .fail "TypeError" "unused"
    dbOk := true }

/-- Claim C10: whenever `analyzePineapple` returns an outcome with status
`error`, that outcome has its detection flag false, its detection
confidence 0, and its sweetness field null — the error outcome never
carries partial detection or sweetness data. -/
theorem analyze_error_outcome_fields :
    ∀ (env : Env) (cfg : ApiConfig) (wf : Nat) (el : ℚ),
      (analyzePineapple env cfg wf el).1.status = Status.error →
      (analyzePineapple env cfg wf el).1.isPineapple = false ∧
      (analyzePineapple env cfg wf el).1.detectionConfidence = 0 ∧
      (analyzePineapple env cfg wf el).1.sweetness = none := by
  intro env cfg wf el hst
  rcases h : analyzeBody env cfg wf el with ⟨res, c⟩
  have hpair : analyzePineapple env cfg wf el =
      (match (res, c) with
       | (Except.ok r, cfg') => (r, cfg')
       | (Except.error e, cfg') => (errorOutcome (handleApiError e).message el, cfg')) := by
    unfold analyzePineapple
    rw [h]
  cases res with
  | ok r =>
      rw [hpair] at hst ⊢
      dsimp at hst ⊢
      obtain ⟨data, rfl⟩ := analyzeBody_ok_transform env cfg wf el r c h
      exact absurd hst (transformBackendResponse_status_ne_error data el)
  | error e =>
      rw [hpair]
      exact ⟨rfl, rfl, rfl⟩

/-- Witness for C10 at a connectivity failure. -/
theorem analyze_error_outcome_fields_witness :
    (analyzePineapple envConnFail DEFAULT_CONFIG 0 0).1.status = Status.error ∧
    ((analyzePineapple envConnFail DEFAULT_CONFIG 0 0).1.isPineapple = false ∧
     (analyzePineapple envConnFail DEFAULT_CONFIG 0 0).1.detectionConfidence = 0 ∧
     (analyzePineapple envConnFail DEFAULT_CONFIG 0 0).1.sweetness = none) :=
  ⟨by decide, analyze_error_outcome_fields envConnFail DEFAULT_CONFIG 0 0 (by decide)⟩

/-- Claim C4: `analyzePineapple` is a total function of the collaborator's
behaviour — it always returns an `AnalysisOutcome` and never propagates a
thrown error (every throw inside the body is an `Except.error`, and the
outer catch converts it); whenever the body fails with any error
(connectivity failure, warm-up shortfall followed by upload failure, retry
exhaustion, non-2xx status, thrown timeout/network error, JSON parse
failure), the returned outcome has status `error` and carries the
non-empty message produced by `handleApiError`. -/
theorem analyze_error_normalization :
    ∀ (env : Env) (cfg : ApiConfig) (wf : Nat) (el : ℚ) (e : JsError),
      (analyzeBody env cfg wf el).1 = Except.error e →
      (analyzePineapple env cfg wf el).1.status = Status.error ∧
      (analyzePineapple env cfg wf el).1.message = (handleApiError e).message ∧
      (analyzePineapple env cfg wf el).1.message ≠ "" := by
  intro env cfg wf el e h
  unfold analyzePineapple
  rcases hb : analyzeBody env cfg wf el with ⟨res, c⟩
  rw [hb] at h
  dsimp at h
  subst h
  exact ⟨rfl, rfl, handleApiError_message_nonempty e⟩

/-- Witness for C4 at a connectivity failure. -/
theorem analyze_error_normalization_witness :
    (analyzeBody envConnFail DEFAULT_CONFIG 0 0).1 =
      Except.error (JsError.networkErr
        "Network connectivity failed: Network request failed" "CONNECTIVITY_FAILED") ∧
    ((analyzePineapple envConnFail DEFAULT_CONFIG 0 0).1.status = Status.error ∧
     (analyzePineapple envConnFail DEFAULT_CONFIG 0 0).1.message =
       (handleApiError (JsError.networkErr
         "Network connectivity failed: Network request failed" "CONNECTIVITY_FAILED")).message ∧
     (analyzePineapple envConnFail DEFAULT_CONFIG 0 0).1.message ≠ "") :=
  ⟨by decide,
   analyze_error_normalization envConnFail DEFAULT_CONFIG 0 0 _ (by decide)⟩

/-- An environment in which the upload immediately receives a fatal
HTTP 404. -/
def cexEnvC8 : Env :=
  { connCheck := .resp 200 "OK" dummyBody
    quickTest := .resp 200 "OK" dummyBody
    warmTest := fun _ => .fail "TypeError" "unused"
    warmHealth := fun _ => .fail "TypeError" "unused"
    warmPredict := fun _ => .fail "TypeError" "unused"
    upload := fun _ => .resp 404 "Not Found" dummyBody
    dbOk := true }

/-- Counterexample to claim C8: on a failure path where the retry loop
throws (HTTP 404 on the first upload attempt), `analyzePineapple`
completes with `config.timeout` still holding the first attempt's
progressive timeout (45000 ms) instead of its original value (30000 ms):
the restore statement after the loop is skipped by the throw. -/
theorem timeout_not_restored_cex :
    DEFAULT_CONFIG.timeout = 30000 ∧
    (analyzePineapple cexEnvC8 DEFAULT_CONFIG 0 0).2.timeout = 45000 ∧
    (analyzePineapple cexEnvC8 DEFAULT_CONFIG 0 0).2.timeout ≠ DEFAULT_CONFIG.timeout :=
  ⟨rfl, by decide, by decide⟩

/-- Claim C8, amended: during one analyze call the base URL is read-only,
and `config.timeout` — which the retry loop mutates in place — is back to
its original value after the call completes on every path on which the
retry loop exits normally (including all successful-upload paths and
failures before the loop), but when the retry loop throws, analyze
completes with `config.timeout` still set to the timeout of the last
attempt. -/
theorem analyze_config_frame :
    ∀ (env : Env) (cfg : ApiConfig) (wf : Nat) (el : ℚ),
      (analyzePineapple env cfg wf el).2.baseUrl = cfg.baseUrl ∧
      ((analyzePineapple env cfg wf el).2.timeout = cfg.timeout ∨
        ∃ e t tr, retryLoop env cfg.baseUrl cfg.timeout = LoopOut.thrown e t tr ∧
          (analyzePineapple env cfg wf el).2.timeout = t) := by
  intro env cfg wf el
  rw [analyzePineapple_cfg]
  unfold analyzeBody
  split
  · exact ⟨rfl, Or.inl rfl⟩
  · dsimp only
    split
    · next e t tr hloop => exact ⟨rfl, Or.inr ⟨e, t, tr, hloop, rfl⟩⟩
    · split
      · split
        · split
          · exact ⟨rfl, Or.inl rfl⟩
          · exact ⟨rfl, Or.inl rfl⟩
        · exact ⟨rfl, Or.inl rfl⟩
      · exact ⟨rfl, Or.inl rfl⟩

/-! ## The retry policy (claim C5) -/

theorem retryDelayFor_eq (k : Nat) :
    retryDelayFor k = min (API_CONFIG.RETRY_DELAY * k) API_CONFIG.MAX_RETRY_DELAY := by
  simp [retryDelayFor, API_CONFIG]

/-- An environment in which the first upload attempt receives an HTTP 404
whose status text happens to contain the word "timeout", and the second
attempt succeeds. -/
def cexEnvC5 : Env :=
  { connCheck := .resp 200 "OK" dummyBody
    quickTest := .resp 200 "OK" dummyBody
    warmTest := fun _ => .fail "TypeError" "unused"
    warmHealth := fun _ => .fail "TypeError" "unused"
    warmPredict := fun _ => .fail "TypeError" "unused"
    upload := fun k =>
      if k = 1 then .resp 404 "gateway timeout" dummyBody
      else .resp 200 "OK" (.ok sampleOkData)
    dbOk := true }

/-- Counterexample to claim C5: an HTTP 404 — a non-2xx status other than
500/502, which the claim says fails immediately with no further retry — is
retried when its status text makes the thrown error's message contain
"timeout": the loop records a sleep and a second attempt, which here
succeeds. -/
theorem retry_nonretryable_status_retried_cex :
    retryLoop cexEnvC5 "u" 30000 =
      LoopOut.done (some ⟨200, "OK", .ok sampleOkData⟩)
        (some (backendErrFor 404 "gateway timeout")) 60000
        [Ev.attemptEv 1 45000, Ev.sleepEv 2000, Ev.attemptEv 2 60000] := by decide

/-- Claim C5, amended: in the upload retry loop, a response on attempt `k`
with status 500 or 502 and attempts remaining leads to a sleep of
`min(RETRY_DELAY · k, MAX_RETRY_DELAY)` (2000 ms · k capped at 10000 ms)
followed by another attempt; any other non-2xx response — and a 500/502 on
the final attempt — raises a backend error carrying the HTTP status, which
fails immediately UNLESS the response's status text makes the error
message contain "timeout", "Aborted" or "Network request failed" while
attempts remain, in which case the string-matching classifier treats it as
retryable and the loop sleeps the same progressive delay and retries. -/
theorem retry_loop_server_error_policy :
    ∀ (env : Env) (baseUrl : String) (fuel attempt : Nat) (lastR : Option JsResponse)
      (lastE : Option JsError) (t0 s : Nat) (st : String)
      (b : Except JsError BackendPredictionResponse),
      env.upload attempt = FetchOutcome.resp s st b →
      ¬(200 ≤ s ∧ s ≤ 299) →
      (((s = 500 ∨ s = 502) ∧ attempt < API_CONFIG.MAX_RETRIES →
         retryLoopAux env baseUrl (fuel + 1) attempt lastR lastE t0 =
           (retryLoopAux env baseUrl fuel (attempt + 1) (some ⟨s, st, b⟩) lastE
               (progressiveTimeout attempt)).prepend
             [Ev.attemptEv attempt (progressiveTimeout attempt),
              Ev.sleepEv (min (API_CONFIG.RETRY_DELAY * attempt) API_CONFIG.MAX_RETRY_DELAY)]) ∧
       (¬((s = 500 ∨ s = 502) ∧ attempt < API_CONFIG.MAX_RETRIES) →
         ¬(attempt < API_CONFIG.MAX_RETRIES ∧ isRetryableError (backendErrFor s st) = true) →
         retryLoopAux env baseUrl (fuel + 1) attempt lastR lastE t0 =
           LoopOut.thrown (backendErrFor s st) (progressiveTimeout attempt)
             [Ev.attemptEv attempt (progressiveTimeout attempt)]) ∧
       (¬((s = 500 ∨ s = 502) ∧ attempt < API_CONFIG.MAX_RETRIES) →
         attempt < API_CONFIG.MAX_RETRIES ∧ isRetryableError (backendErrFor s st) = true →
         retryLoopAux env baseUrl (fuel + 1) attempt lastR lastE t0 =
           (retryLoopAux env baseUrl fuel (attempt + 1) (some ⟨s, st, b⟩)
               (some (backendErrFor s st)) (progressiveTimeout attempt)).prepend
             [Ev.attemptEv attempt (progressiveTimeout attempt),
              Ev.sleepEv (min (API_CONFIG.RETRY_DELAY * attempt) API_CONFIG.MAX_RETRY_DELAY)])) := by
  intro env baseUrl fuel attempt lastR lastE t0 s st b henv hs
  have hok : (JsResponse.mk s st b).ok = false := by
    simp [JsResponse.ok]
    omega
  refine ⟨?_, ?_, ?_⟩
  · intro h1
    simp only [retryLoopAux, henv, makeRequest]
    simp [hok, h1, retryDelayFor_eq]
  · intro h1 h2
    simp only [retryLoopAux, henv, makeRequest]
    simp [hok, h1, h2]
  · intro h1 h2
    simp only [retryLoopAux, henv, makeRequest]
    simp [hok, h1, h2, retryDelayFor_eq]
    intro hA
    exact absurd ⟨hA, h2.1⟩ h1

/-- An environment whose upload attempts persistently receive HTTP 502. -/
def env502Persistent : Env :=
  { connCheck := .resp 200 "OK" dummyBody
    quickTest := .resp 200 "OK" dummyBody
    warmTest := fun _ => .fail "TypeError" "unused"
    warmHealth := fun _ => .fail "TypeError" "unused"
    warmPredict := fun _ => .fail "TypeError" "unused"
    upload := fun _ => .resp 502 "Bad Gateway" dummyBody
    dbOk := true }

/-- Witness for C5's amended theorem: a 502 on attempt 3 (attempts
remaining) sleeps `min(2000·3, 10000) = 6000` ms and retries. -/
theorem retry_loop_server_error_policy_witness :
    retryLoopAux env502Persistent "u" 3 3 none none 777 =
      (retryLoopAux env502Persistent "u" 2 4 (some ⟨502, "Bad Gateway", dummyBody⟩) none
          (progressiveTimeout 3)).prepend
        [Ev.attemptEv 3 (progressiveTimeout 3),
         Ev.sleepEv (min (API_CONFIG.RETRY_DELAY * 3) API_CONFIG.MAX_RETRY_DELAY)] :=
  (retry_loop_server_error_policy env502Persistent "u" 2 3 none none 777 502 "Bad Gateway"
      dummyBody rfl (by omega)).1 ⟨Or.inr rfl, by decide⟩

end PineappleApk

